import Mathlib

/-!
Verification of the difficult-conversations training module: a shallow
embedding of the session data model (`models/session.py`), the content
catalog (`services/content_provider.py`), the evaluator
(`services/evaluation_service.py`), the pydantic evaluation-result model
(`models/evaluation.py`) and the training engine
(`services/training_engine.py`).

Modelling conventions:
- Python `int` becomes `Int`; Python `float` scores become `ℚ` (only exact
  decimal constants 0, 7, 10 occur); `datetime.utcnow()` becomes an explicit
  `now : Nat` argument threaded into every mutating operation.
- `SessionManager.get_session` hands the engine the very object stored in its
  map, so attribute mutations performed by the engine persist in the store
  even when a later statement raises.  Engine operations therefore return an
  `EngineOutcome` carrying the post-mutation session state together with
  either the result or the raised error: the session in an error outcome is
  the state the store is left in when the exception propagates.
- Python `dict[str, str]` becomes an association list `List (String × String)`
  (insertion ordered, like Python dicts); `None` becomes `Option.none`;
  Python truthiness of an optional string (`if step.gold_response:`) is
  falsity of `none` and of `some ""`, of an optional dict falsity of `none`
  and of the empty list.
- `answer.strip().upper()` becomes whitespace trimming followed by ASCII
  uppercasing over the character list (all letters involved are ASCII).
-/

/-- `StepType` enum from `models/step.py`. -/
inductive StepType where
  | recognition
  | transition
  | production
deriving DecidableEq, Repr

/-- `Step` from `models/step.py`: one content-catalog entry. -/
structure Step where
  id : Int
  type : StepType
  scenario : String
  options : Option (List (String × String))
  correct_answer : Option String
  gold_response : Option String
  allow_free_form : Bool
  pass_threshold : ℚ
deriving DecidableEq, Repr

/-- `RubricDimensions` from `models/evaluation.py`. -/
structure RubricDimensions where
  de_escalation : ℚ
  validation : ℚ
  clarity : ℚ
  autonomy : ℚ
  next_step : ℚ
deriving DecidableEq, Repr

/-- `RubricDimensions.total_score`. -/
def RubricDimensions.total_score (d : RubricDimensions) : ℚ :=
  d.de_escalation + d.validation + d.clarity + d.autonomy + d.next_step

/-- `EvaluationResult` from `models/evaluation.py`. -/
structure EvaluationResult where
  passed : Bool
  score : ℚ
  feedback : String
  dimensions : Option RubricDimensions
  threshold : ℚ
deriving DecidableEq, Repr

/-- `AnswerRecord` from `models/session.py`. -/
structure AnswerRecord where
  step_id : Int
  answer : String
  correct : Bool
  score : Option ℚ
  timestamp : Nat
deriving DecidableEq, Repr

/-- `SessionState` from `models/session.py`. -/
structure SessionState where
  user_id : String
  current_step : Int
  failure_count : Int
  in_remediation : Bool
  remediation_content : Option String
  remediation_question : Option String
  remediation_options : Option (List (String × String))
  remediation_correct_answer : Option String
  original_step : Option Int
  history : List AnswerRecord
  started_at : Nat
  last_activity : Nat
  completed : Bool
  completed_at : Option Nat
deriving DecidableEq, Repr

/-- A fresh session, as built by `SessionManager.create_session`:
`SessionState(user_id=user_id)` with every other field at its declared
default. -/
def SessionState.fresh (user_id : String) (now : Nat) : SessionState :=
  { user_id := user_id
    current_step := 1
    failure_count := 0
    in_remediation := false
    remediation_content := none
    remediation_question := none
    remediation_options := none
    remediation_correct_answer := none
    original_step := none
    history := []
    started_at := now
    last_activity := now
    completed := false
    completed_at := none }

/-- `SessionState.update_activity`. -/
def SessionState.update_activity (s : SessionState) (now : Nat) : SessionState :=
  { s with last_activity := now }

/-- `SessionState.add_answer`: appends a record and refreshes activity. -/
def SessionState.add_answer (s : SessionState) (now : Nat) (step_id : Int)
    (answer : String) (correct : Bool) (score : Option ℚ) : SessionState :=
  { s with
    history := s.history ++
      [{ step_id := step_id, answer := answer, correct := correct,
         score := score, timestamp := now }]
    last_activity := now }

/-- `SessionState.mark_completed`. -/
def SessionState.mark_completed (s : SessionState) (now : Nat) : SessionState :=
  { s with completed := true, completed_at := some now, last_activity := now }

/-- `SessionState.enter_remediation`: sets the remediation fields, and sets
`original_step` from `current_step` only when it is currently `None`. -/
def SessionState.enter_remediation (s : SessionState) (now : Nat)
    (content question : String) (options : List (String × String))
    (correct_answer : String) : SessionState :=
  { s with
    in_remediation := true
    remediation_content := some content
    remediation_question := some question
    remediation_options := some options
    remediation_correct_answer := some correct_answer
    original_step :=
      match s.original_step with
      | none => some s.current_step
      | some o => some o
    last_activity := now }

/-- The step `exit_remediation` restores `current_step` to: the saved
`original_step` when it `is not None`, else the unchanged `current_step`. -/
def SessionState.restored_step (s : SessionState) : Int :=
  match s.original_step with
  | some o => o
  | none => s.current_step

/-- `SessionState.exit_remediation`: clears the remediation fields, restores
`current_step` from `original_step` (when not `None`), clears
`original_step`, zeroes `failure_count`. -/
def SessionState.exit_remediation (s : SessionState) (now : Nat) : SessionState :=
  { s with
    in_remediation := false
    remediation_content := none
    remediation_question := none
    remediation_options := none
    remediation_correct_answer := none
    current_step := s.restored_step
    original_step := none
    failure_count := 0
    last_activity := now }

/-- `session.failure_count += 1` (a bare attribute assignment: it does not
refresh `last_activity`). -/
def SessionState.bump_failure (s : SessionState) : SessionState :=
  { s with failure_count := s.failure_count + 1 }

/-- Python `session.original_step or session.current_step`: `or` falls
through on falsy values, i.e. on `None` and on `0`. -/
def SessionState.original_or_current (s : SessionState) : Int :=
  match s.original_step with
  | none => s.current_step
  | some o => if o = 0 then s.current_step else o

/-- Python truthiness of an optional string: `None` and `""` are falsy. -/
def truthy_string : Option String → Option String
  | none => none
  | some g => if g = "" then none else some g

/-- Python `str.strip` on a character list: drop leading and trailing
whitespace. -/
def python_strip (cs : List Char) : List Char :=
  ((cs.dropWhile Char.isWhitespace).reverse.dropWhile Char.isWhitespace).reverse

/-- `a.strip()`. -/
def python_stripped (a : String) : String :=
  String.mk (python_strip a.data)

/-- `answer.strip().upper()` (ASCII uppercasing: every letter compared in
this module is ASCII). -/
def normalize_answer (a : String) : String :=
  String.mk ((python_strip a.data).map Char.toUpper)

namespace ContentProvider

/-- Step 1 of `ContentProvider._initialize_steps`. -/
def step_1 : Step :=
  { id := 1
    type := .recognition
    scenario := "Alex says:\n\"Why do you keep checking on this? I've got it under control.\""
    options := some
      [("A", "I trust you. I'll stop asking."),
       ("B", "Because last time it slipped."),
       ("C", "I'm not doubting you. I need visibility to answer stakeholders. A short weekly update would be enough."),
       ("D", "This is just how we work.")]
    correct_answer := some "C"
    gold_response := none
    allow_free_form := false
    pass_threshold := 7 }

/-- Step 2 of `ContentProvider._initialize_steps`. -/
def step_2 : Step :=
  { id := 2
    type := .recognition
    scenario := "Alex says:\n\"It feels like you don't trust me.\""
    options := some
      [("A", "That's not true. Don't take it personally."),
       ("B", "Trust isn't the issue. Delivery is."),
       ("C", "I trust your expertise. I still need a predictable way to report progress. How would you prefer we do that?"),
       ("D", "Let's stay professional.")]
    correct_answer := some "C"
    gold_response := none
    allow_free_form := false
    pass_threshold := 7 }

/-- Step 3 of `ContentProvider._initialize_steps`. -/
def step_3 : Step :=
  { id := 3
    type := .recognition
    scenario := "Alex says:\n\"You're changing requirements again. That's why things slow down.\""
    options := some
      [("A", "Priorities change. Deal with it."),
       ("B", "You're overreacting."),
       ("C", "What changed is the deadline, not the scope. I should've been clearer. Given the new date, what adjustment makes sense to you?"),
       ("D", "Just do your best.")]
    correct_answer := some "C"
    gold_response := none
    allow_free_form := false
    pass_threshold := 7 }

/-- Step 4 of `ContentProvider._initialize_steps`. -/
def step_4 : Step :=
  { id := 4
    type := .transition
    scenario := "Alex says:\n\"If you don't trust me, just say it.\""
    options := some
      [("A", "I do trust you, relax."),
       ("B", "This isn't about trust."),
       ("C", "You're being defensive."),
       ("D", "Let's keep emotions out of this.")]
    correct_answer := none
    gold_response := some "I do trust how you work. What I'm accountable for is the outcome and timing. Let's agree on one clear checkpoint so I can cover that, and you keep ownership."
    allow_free_form := true
    pass_threshold := 7 }

/-- Step 5 of `ContentProvider._initialize_steps`. -/
def step_5 : Step :=
  { id := 5
    type := .production
    scenario := "Context: Deadline missed, escalation happened.\n\nAlex says:\n\"This keeps happening because I'm being micromanaged instead of trusted.\""
    options := none
    correct_answer := none
    gold_response := some "I hear that this feels controlling. I'm accountable for delivery and escalation, not for how you work day to day. We missed the date, so let's reset expectations and agree on one checkpoint going forward."
    allow_free_form := true
    pass_threshold := 7 }

/-- `ContentProvider.get_step`: `self._steps.get(step_id)` over the fixed
five-entry dict. -/
def get_step (step_id : Int) : Option Step :=
  if step_id = 1 then some step_1
  else if step_id = 2 then some step_2
  else if step_id = 3 then some step_3
  else if step_id = 4 then some step_4
  else if step_id = 5 then some step_5
  else none

/-- `ContentProvider.get_topic`. -/
def get_topic : String := "Autonomy vs Accountability"

end ContentProvider

/-- Possible failures raised by `EvaluationService.evaluate_answer` and by
the remote LLM collaborator during evaluation. -/
inductive EvalError where
  | step_not_found (step_id : Int)
  | missing_gold_response (step_id : Int)
  | llm_error (msg : String)
deriving DecidableEq, Repr

/-- Output shape of `LLMService.generate_remediation` (validated there:
exactly 4 options and a correct answer in A..D). -/
structure Remediation where
  explanation : String
  remedial_scenario : String
  remedial_options : List String
  remedial_correct_answer : String
  hint : String
deriving DecidableEq, Repr

/-- One worked example in a generated mini-lesson. -/
structure MLExample where
  situation : String
  wrong_approach : String
  right_approach : String
  why_it_works : String
deriving DecidableEq, Repr

/-- Output shape of `LLMService.generate_mini_lesson`. -/
structure MiniLesson where
  lesson_title : String
  core_principle : String
  examples : List MLExample
  common_mistakes : List String
  key_takeaway : String
deriving DecidableEq, Repr

/-- The remote LLM collaborator: three blocking operations, each either
returning parsed structured data or raising. -/
structure LLMOracle where
  generate_remediation :
    (topic user_answer failure_reason : String) → (failure_count : Int) →
      Except String Remediation
  generate_mini_lesson : (topic : String) → Except String MiniLesson
  evaluate_free_form :
    (user_answer scenario gold_response : String) → (step_id : Int) →
      Except String EvaluationResult

/-- The shape validation `LLMService.generate_remediation` performs on every
successfully returned payload. -/
def Remediation.well_formed (r : Remediation) : Prop :=
  r.remedial_options.length = 4 ∧
    (r.remedial_correct_answer = "A" ∨ r.remedial_correct_answer = "B" ∨
     r.remedial_correct_answer = "C" ∨ r.remedial_correct_answer = "D")

/-- An oracle is valid when every remediation payload it successfully returns
passes the validation `LLMService.generate_remediation` enforces. -/
def LLMOracle.Valid (llm : LLMOracle) : Prop :=
  ∀ topic ua fr fc r,
    llm.generate_remediation topic ua fr fc = .ok r → r.well_formed

namespace EvaluationService

/-- Fixed feedback for a correct recognition answer. -/
def recognition_correct_feedback : String :=
  "Correct! This is the best response that balances accountability with autonomy."

/-- Feedback for a wrong but recognized option letter, naming the chosen
option text. -/
def recognition_wrong_feedback (wrong_option_text : String) : String :=
  "Incorrect. You selected: '" ++ wrong_option_text ++
    "'. This approach doesn't effectively balance autonomy and accountability. Try again."

/-- Feedback for an unrecognized token on a recognition step. -/
def recognition_invalid_feedback : String :=
  "Incorrect answer. Please select one of the provided options (A-D)."

/-- Feedback when a decoy option letter is chosen on a free-form step. -/
def production_decoy_feedback : String :=
  "You selected a predefined option, but none of them are effective for this situation. Please provide a free-form response that balances autonomy and accountability."

/-- Feedback for a too-short free-form answer. -/
def production_too_short_feedback : String :=
  "Your response is too short. Please provide a thoughtful, complete response."

/-- `answer_normalized == step.correct_answer`: comparing a `str` against an
`Optional[str]` is `False` when the latter is `None`. -/
def matches_correct (step : Step) (n : String) : Bool :=
  match step.correct_answer with
  | some c => n == c
  | none => false

/-- `step.options and key in step.options`: falsy on `None` and on an empty
dict, then a key-membership test. -/
def step_options_contains (step : Step) (n : String) : Bool :=
  match step.options with
  | none => false
  | some opts => !opts.isEmpty && (opts.lookup n).isSome

/-- `EvaluationService._evaluate_recognition`. -/
def evaluate_recognition (step : Step) (answer : String) : EvaluationResult :=
  if matches_correct step (normalize_answer answer) then
    { passed := true, score := 10, feedback := recognition_correct_feedback,
      dimensions := none, threshold := 10 }
  else
    { passed := false, score := 0
      feedback :=
        match step.options with
        | some opts =>
          if opts.isEmpty then recognition_invalid_feedback
          else
            match opts.lookup (normalize_answer answer) with
            | some t => recognition_wrong_feedback t
            | none => recognition_invalid_feedback
        | none => recognition_invalid_feedback
      dimensions := none, threshold := 10 }

/-- `EvaluationService._evaluate_production` (also used for transition
steps): decoy options always fail, short answers fail, otherwise the remote
collaborator scores the text. -/
def evaluate_production (llm : LLMOracle) (step : Step) (answer : String) :
    Except EvalError EvaluationResult :=
  if step_options_contains step (normalize_answer answer) then
    .ok { passed := false, score := 0, feedback := production_decoy_feedback,
          dimensions := none, threshold := step.pass_threshold }
  else if answer = "" ∨ (python_stripped answer).length < 10 then
    .ok { passed := false, score := 0, feedback := production_too_short_feedback,
          dimensions := none, threshold := step.pass_threshold }
  else
    match truthy_string step.gold_response with
    | none => .error (.missing_gold_response step.id)
    | some gold =>
      match llm.evaluate_free_form answer step.scenario gold step.id with
      | .error m => .error (.llm_error m)
      | .ok ev => .ok ev

/-- `EvaluationService.evaluate_answer`. -/
def evaluate_answer (llm : LLMOracle) (step_id : Int) (answer : String) :
    Except EvalError EvaluationResult :=
  match ContentProvider.get_step step_id with
  | none => .error (.step_not_found step_id)
  | some step =>
    match step.type with
    | .recognition => .ok (evaluate_recognition step answer)
    | .transition => evaluate_production llm step answer
    | .production => evaluate_production llm step answer

end EvaluationService

/-- Failures raised out of `TrainingEngine.submit_answer`.  In the source all
of these are raised Python exceptions; they are distinguished here by which
statement raised them. -/
inductive EngineError where
  | no_active_session (user_id : String)
  | already_completed
  | step_not_found (step_id : Int)
  | not_in_remediation
  | eval_failed (e : EvalError)
  | llm_failed (msg : String)
  | remediation_options_missing
deriving DecidableEq, Repr

/-- The remediation payload included in failure results: the subset of the
generated `Remediation` dict that `_handle_failure` returns to the caller. -/
structure RemediationPayload where
  explanation : String
  scenario : String
  options : List String
  hint : String
deriving DecidableEq, Repr

/-- The tagged results `submit_answer` can return.  Constant message strings
carried alongside these results in the source are fixed literals and carry no
state, so they are not repeated here. -/
inductive EngineResult where
  | passed (evaluation : EvaluationResult) (next_step : Option Step)
      (gold_response : Option String)
  | module_completed (evaluation : EvaluationResult) (history : List AnswerRecord)
  | failed_first_attempt (evaluation : EvaluationResult)
      (remediation : RemediationPayload)
  | failed_second_attempt (evaluation : EvaluationResult)
      (mini_lesson : MiniLesson) (remediation : RemediationPayload)
  | failed (evaluation : EvaluationResult)
  | remediation_passed (next_step : Option Step)
  | remediation_failed (selected_option : String)
  | remediation_failed_multiple (mini_lesson : MiniLesson)
      (formatted_content : String)
  | invalid_answer
deriving DecidableEq, Repr

deriving instance DecidableEq for Except

/-- Result of one engine operation: the session state the store is left with
(mutations made before an exception persist, because the engine mutates the
object held by the store) and the returned result or raised error. -/
structure EngineOutcome where
  session : SessionState
  result : Except EngineError EngineResult
deriving DecidableEq, Repr

namespace TrainingEngine

/-- `TrainingEngine._format_remediation_question`: just the remedial
scenario. -/
def format_remediation_question (r : Remediation) : String :=
  r.remedial_scenario

/-- Whether a character is one of A-D in either case (the character class of
the option-cleaning pattern, which is case-insensitive). -/
def is_option_letter (c : Char) : Bool :=
  c = 'A' ∨ c = 'B' ∨ c = 'C' ∨ c = 'D' ∨ c = 'a' ∨ c = 'b' ∨ c = 'c' ∨ c = 'd'

/-- The anchored substitution inside `clean_option`: drop a leading letter
A-D (any case), an optional `.` or `)`, and a following run of at least one
whitespace character; otherwise leave the text unchanged. -/
def clean_option_chars : List Char → List Char
  | [] => []
  | c :: rest =>
    if is_option_letter c then
      match rest with
      | [] => c :: rest
      | p :: rest2 =>
        if p = '.' ∨ p = ')' then
          match rest2 with
          | w :: _ =>
            if w.isWhitespace then rest2.dropWhile Char.isWhitespace
            else c :: rest
          | [] => c :: rest
        else if p.isWhitespace then rest.dropWhile Char.isWhitespace
        else c :: rest
    else c :: rest

/-- `clean_option` inside `_format_remediation_options`: strip the option
text, remove any letter marker at its start, and strip again. -/
def clean_option (option : String) : String :=
  python_stripped (String.mk (clean_option_chars (python_stripped option).data))

/-- `TrainingEngine._format_remediation_options`: pair the cleaned options
with the letters A, B, C, ... by position. -/
def format_remediation_options (r : Remediation) : List (String × String) :=
  r.remedial_options.enum.map
    (fun p => (String.singleton (Char.ofNat (65 + p.1)), clean_option p.2))

/-- The lines `_format_mini_lesson` emits for one worked example
(`enumerate(..., 1)` numbers them from 1). -/
def format_example (i : Nat) (e : MLExample) : List String :=
  ["",
   "### Example " ++ toString i ++ ": " ++ e.situation,
   "**Wrong approach:** " ++ e.wrong_approach,
   "**Right approach:** " ++ e.right_approach,
   "**Why it works:** " ++ e.why_it_works]

/-- `TrainingEngine._format_mini_lesson`: the markdown blob joined with
newlines. -/
def format_mini_lesson (m : MiniLesson) : String :=
  String.intercalate "\n"
    (["# " ++ m.lesson_title, "", "## Core Principle", m.core_principle, "",
      "## Examples"] ++
     (m.examples.enum.map (fun p => format_example (p.1 + 1) p.2)).flatten ++
     ["", "## Common Mistakes"] ++
     m.common_mistakes.map (fun mistake => "- " ++ mistake) ++
     ["", "## Key Takeaway", m.key_takeaway])

/-- `TrainingEngine._handle_pass`: zero the failure count, then either mark
the module completed (step 5) or advance one step, surfacing the completed
step's gold response when it is truthy. -/
def handle_pass (now : Nat) (s : SessionState) (step : Step)
    (ev : EvaluationResult) : EngineOutcome :=
  if 5 ≤ s.current_step then
    ⟨(({ s with failure_count := 0 } : SessionState).mark_completed now).update_activity now,
     .ok (.module_completed ev s.history)⟩
  else
    ⟨({ s with failure_count := 0, current_step := s.current_step + 1 } :
        SessionState).update_activity now,
     .ok (.passed ev (ContentProvider.get_step (s.current_step + 1))
        (truthy_string step.gold_response))⟩

/-- The body of `TrainingEngine._handle_failure` after the increment
`session.failure_count += 1` (which the caller has already applied to `s`). -/
def handle_failure_core (llm : LLMOracle) (now : Nat) (s : SessionState)
    (ev : EvaluationResult) (user_answer : String) : EngineOutcome :=
  if s.failure_count = 1 then
    match llm.generate_remediation ContentProvider.get_topic user_answer
        ev.feedback s.failure_count with
    | .error m => ⟨s, .error (.llm_failed m)⟩
    | .ok r =>
      ⟨((s.enter_remediation now r.explanation (format_remediation_question r)
          (format_remediation_options r) r.remedial_correct_answer)).update_activity now,
       .ok (.failed_first_attempt ev
          ⟨r.explanation, r.remedial_scenario, r.remedial_options, r.hint⟩)⟩
  else if 2 ≤ s.failure_count then
    match llm.generate_mini_lesson ContentProvider.get_topic with
    | .error m => ⟨s, .error (.llm_failed m)⟩
    | .ok ml =>
      match llm.generate_remediation ContentProvider.get_topic user_answer
          ev.feedback s.failure_count with
      | .error m => ⟨s, .error (.llm_failed m)⟩
      | .ok r =>
        ⟨{ s with
            remediation_content := some (format_mini_lesson ml)
            remediation_question := some (format_remediation_question r)
            remediation_options := some (format_remediation_options r)
            remediation_correct_answer := some r.remedial_correct_answer
            last_activity := now },
         .ok (.failed_second_attempt ev ml
            ⟨r.explanation, r.remedial_scenario, r.remedial_options, r.hint⟩)⟩
  else
    ⟨s.update_activity now, .ok (.failed ev)⟩

/-- `TrainingEngine._handle_failure`: increment the failure count, then
branch on it. -/
def handle_failure (llm : LLMOracle) (now : Nat) (s : SessionState)
    (ev : EvaluationResult) (user_answer : String) : EngineOutcome :=
  handle_failure_core llm now s.bump_failure ev user_answer

/-- `TrainingEngine._handle_step_answer`: look up the current step, evaluate
the answer, append it to history whatever the outcome, then branch on
pass/fail.  An evaluation exception propagates before any mutation. -/
def handle_step_answer (llm : LLMOracle) (now : Nat) (s : SessionState)
    (answer : String) : EngineOutcome :=
  match ContentProvider.get_step s.current_step with
  | none => ⟨s, .error (.step_not_found s.current_step)⟩
  | some step =>
    match EvaluationService.evaluate_answer llm s.current_step answer with
    | .error e => ⟨s, .error (.eval_failed e)⟩
    | .ok ev =>
      if ev.passed then
        handle_pass now
          (s.add_answer now s.current_step answer ev.passed (some ev.score)) step ev
      else
        handle_failure llm now
          (s.add_answer now s.current_step answer ev.passed (some ev.score)) ev answer

/-- The wrong-letter tail of `_handle_remediation_answer`, applied after the
failure-count increment and the history append: above two failures a fresh
mini-lesson overwrites the remediation content, otherwise the chosen wrong
option text is echoed back (`remediation_options.get` would raise if the
options dict were `None`). -/
def remediation_fail_core (llm : LLMOracle) (now : Nat) (s : SessionState)
    (n : String) : EngineOutcome :=
  if 2 < s.failure_count then
    match llm.generate_mini_lesson ContentProvider.get_topic with
    | .error m => ⟨s, .error (.llm_failed m)⟩
    | .ok ml =>
      ⟨{ s with
          remediation_content := some (format_mini_lesson ml)
          last_activity := now },
       .ok (.remediation_failed_multiple ml (format_mini_lesson ml))⟩
  else
    match s.remediation_options with
    | none => ⟨s.update_activity now, .error .remediation_options_missing⟩
    | some opts =>
      ⟨s.update_activity now, .ok (.remediation_failed ((opts.lookup n).getD ""))⟩

/-- `TrainingEngine._handle_remediation_answer`. -/
def handle_remediation_answer (llm : LLMOracle) (now : Nat) (s : SessionState)
    (answer : String) : EngineOutcome :=
  if s.in_remediation = false then ⟨s, .error .not_in_remediation⟩
  else if normalize_answer answer ∉ (["A", "B", "C", "D"] : List String) then
    ⟨s, .ok .invalid_answer⟩
  else if s.remediation_correct_answer = some (normalize_answer answer) then
    ⟨(((s.add_answer now s.original_or_current answer true none).exit_remediation
        now)).update_activity now,
     .ok (.remediation_passed (ContentProvider.get_step s.restored_step))⟩
  else
    remediation_fail_core llm now
      (s.bump_failure.add_answer now s.bump_failure.original_or_current answer
        false none)
      (normalize_answer answer)

/-- `TrainingEngine.submit_answer`, given the session the store returned (the
missing-session case is handled at the store boundary): reject completed
sessions, then dispatch on `is_remediation`. -/
def submit_answer (llm : LLMOracle) (now : Nat) (s : SessionState)
    (answer : String) (is_remediation : Bool) : EngineOutcome :=
  if s.completed then ⟨s, .error .already_completed⟩
  else if is_remediation then handle_remediation_answer llm now s answer
  else handle_step_answer llm now s answer

/-- `TrainingEngine.advance_to_next_step` on an existing session: a no-op
past step 5 or once completed, otherwise advance one step and zero the
failure count. -/
def advance_to_next_step (now : Nat) (s : SessionState) :
    SessionState × Option Step :=
  if s.completed then (s, none)
  else if 5 ≤ s.current_step then (s, none)
  else
    (({ s with current_step := s.current_step + 1, failure_count := 0 } :
        SessionState).update_activity now,
     ContentProvider.get_step (s.current_step + 1))

end TrainingEngine

/-- The body of `EvaluationResult.validate_passed` (`models/evaluation.py`):
keep an explicit boolean, otherwise derive the flag from the `score` and
`threshold` entries of `info.data`, defaulting to `0` and `7.0` when those
entries are absent. -/
def validate_passed (v : Option Bool) (data_score : Option ℚ)
    (data_threshold : Option ℚ) : Bool :=
  match v with
  | some b => b
  | none => decide (data_score.getD 0 ≥ data_threshold.getD 7)

/-- Constructing an `EvaluationResult` through pydantic: fields are validated
in declaration order (`passed`, `score`, `feedback`, `dimensions`,
`threshold`) and a before-validator sees in `info.data` only the fields
already validated.  `passed` is the first declared field, so its validator
runs with an empty `info.data`: both lookups miss. -/
def construct_evaluation_result (passed_raw : Option Bool) (score : ℚ)
    (feedback : String) (dimensions : Option RubricDimensions)
    (threshold : ℚ) : EvaluationResult :=
  { passed := validate_passed passed_raw none none
    score := score
    feedback := feedback
    dimensions := dimensions
    threshold := threshold }

/-- An oracle whose every remote call fails (network/parse failure). -/
def llm_fail : LLMOracle :=
  { generate_remediation := fun _ _ _ _ => .error "remediation unavailable"
    generate_mini_lesson := fun _ => .error "mini-lesson unavailable"
    evaluate_free_form := fun _ _ _ _ => .error "evaluator unavailable" }

/-- A fixed well-formed remediation payload for concrete runs. -/
def sample_remediation : Remediation :=
  { explanation := "Balance autonomy with accountability."
    remedial_scenario := "Alex pushes back on a checkpoint."
    remedial_options :=
      ["A. Cancel the checkpoint", "Insist without explanation",
       "Explain the constraint and offer a choice", "Change the subject"]
    remedial_correct_answer := "C"
    hint := "Think about the what and when." }

/-- A fixed mini-lesson payload for concrete runs. -/
def sample_mini_lesson : MiniLesson :=
  { lesson_title := "Autonomy vs Accountability"
    core_principle := "Autonomy lives in the how."
    examples :=
      [{ situation := "A missed deadline"
         wrong_approach := "Micromanage"
         right_approach := "Agree one checkpoint"
         why_it_works := "Preserves ownership" }]
    common_mistakes := ["Taking over the how"]
    key_takeaway := "Lock the next step." }

/-- An oracle whose every remote call succeeds with fixed payloads. -/
def llm_ok : LLMOracle :=
  { generate_remediation := fun _ _ _ _ => .ok sample_remediation
    generate_mini_lesson := fun _ => .ok sample_mini_lesson
    evaluate_free_form := fun _ _ _ _ =>
      .ok { passed := true, score := 8, feedback := "Solid response."
            dimensions := none, threshold := 7 } }

/-- A completed session used as concrete input. -/
def demo_completed_session : SessionState :=
  { SessionState.fresh "u" 0 with completed := true, completed_at := some 3 }

/-- An in-remediation session literal (two failures so far, correct letter
B) used as concrete input. -/
def demo_remediation_session : SessionState :=
  { SessionState.fresh "u" 0 with
    in_remediation := true
    original_step := some 1
    failure_count := 2
    remediation_content := some "Balance autonomy with accountability."
    remediation_question := some "Which response works best?"
    remediation_options :=
      some [("A", "one"), ("B", "two"), ("C", "three"), ("D", "four")]
    remediation_correct_answer := some "B" }

/-- The reachable in-remediation session produced by failing step 1 once
against the always-succeeding oracle. -/
def demo_in_remediation : SessionState :=
  (TrainingEngine.submit_answer llm_ok 1 (SessionState.fresh "u" 0) "A" false).session

theorem llm_fail_valid : llm_fail.Valid := by
  intro t ua fr fc r h
  simp [llm_fail, LLMOracle.Valid] at h

theorem llm_ok_valid : llm_ok.Valid := by
  intro t ua fr fc r h
  simp only [llm_ok] at h
  cases h
  exact ⟨rfl, Or.inr (Or.inr (Or.inl rfl))⟩

/-- The state invariant the engine maintains on every session it ever
stores: the failure count never goes negative, the current step stays at
least 1, a saved original step is at least 1, the original step is recorded
exactly while the session is in remediation, and while in remediation the
stored correct answer is one of the four letters the LLM service validates. -/
structure EngineInv (s : SessionState) : Prop where
  fc_nonneg : 0 ≤ s.failure_count
  cs_pos : 1 ≤ s.current_step
  orig_pos : ∀ o, s.original_step = some o → 1 ≤ o
  orig_iff_rem : s.original_step ≠ none ↔ s.in_remediation = true
  rem_correct : s.in_remediation = true →
    s.remediation_correct_answer = some "A" ∨
    s.remediation_correct_answer = some "B" ∨
    s.remediation_correct_answer = some "C" ∨
    s.remediation_correct_answer = some "D"

/-- Session states reachable through engine operations from a freshly
started module, submitting through oracles that validate their payloads the
way `LLMService` does. -/
inductive Reachable : SessionState → Prop where
  | start (user_id : String) (now : Nat) : Reachable (SessionState.fresh user_id now)
  | submit {s : SessionState} (llm : LLMOracle) (now : Nat) (answer : String)
      (is_remediation : Bool) : llm.Valid → Reachable s →
      Reachable (TrainingEngine.submit_answer llm now s answer is_remediation).session
  | advance {s : SessionState} (now : Nat) : Reachable s →
      Reachable (TrainingEngine.advance_to_next_step now s).1

theorem inv_fresh (user_id : String) (now : Nat) :
    EngineInv (SessionState.fresh user_id now) := by
  refine ⟨le_refl 0, le_refl 1, ?_, ?_, ?_⟩ <;> simp [SessionState.fresh]

theorem inv_handle_pass {s : SessionState} (now : Nat) (step : Step)
    (ev : EvaluationResult) (h : EngineInv s) :
    EngineInv (TrainingEngine.handle_pass now s step ev).session := by
  unfold TrainingEngine.handle_pass
  split
  · exact ⟨le_refl 0, h.cs_pos, h.orig_pos, h.orig_iff_rem, h.rem_correct⟩
  · refine ⟨le_refl 0, ?_, h.orig_pos, h.orig_iff_rem, h.rem_correct⟩
    show (1 : Int) ≤ s.current_step + 1
    have := h.cs_pos
    omega

theorem inv_handle_failure_core {llm : LLMOracle} (hv : llm.Valid)
    {s : SessionState} (now : Nat) (ev : EvaluationResult) (ans : String)
    (h : EngineInv s) :
    EngineInv (TrainingEngine.handle_failure_core llm now s ev ans).session := by
  unfold TrainingEngine.handle_failure_core
  split
  · split
    · exact h
    · next r heq =>
      refine ⟨h.fc_nonneg, h.cs_pos, ?_, ?_, ?_⟩
      · intro o ho
        simp only [SessionState.update_activity, SessionState.enter_remediation] at ho
        cases hos : s.original_step with
        | none => rw [hos] at ho; simp at ho; subst ho; exact h.cs_pos
        | some o2 => rw [hos] at ho; simp at ho; subst ho; exact h.orig_pos o2 hos
      · simp only [SessionState.update_activity, SessionState.enter_remediation]
        cases s.original_step <;> simp
      · intro _
        have := (hv _ _ _ _ _ heq).2
        simp only [SessionState.update_activity, SessionState.enter_remediation]
        rcases this with h1 | h1 | h1 | h1 <;> simp [h1]
  · split
    · split
      · exact h
      · split
        · exact h
        · next r heq =>
          refine ⟨h.fc_nonneg, h.cs_pos, h.orig_pos, h.orig_iff_rem, ?_⟩
          intro _
          have := (hv _ _ _ _ _ heq).2
          rcases this with h1 | h1 | h1 | h1 <;> simp [h1]
    · exact ⟨h.fc_nonneg, h.cs_pos, h.orig_pos, h.orig_iff_rem, h.rem_correct⟩

theorem inv_remediation_fail_core {llm : LLMOracle} {s : SessionState}
    (now : Nat) (n : String) (h : EngineInv s) :
    EngineInv (TrainingEngine.remediation_fail_core llm now s n).session := by
  unfold TrainingEngine.remediation_fail_core
  split
  · split
    · exact h
    · exact ⟨h.fc_nonneg, h.cs_pos, h.orig_pos, h.orig_iff_rem, h.rem_correct⟩
  · split
    · exact ⟨h.fc_nonneg, h.cs_pos, h.orig_pos, h.orig_iff_rem, h.rem_correct⟩
    · exact ⟨h.fc_nonneg, h.cs_pos, h.orig_pos, h.orig_iff_rem, h.rem_correct⟩

theorem inv_handle_remediation {llm : LLMOracle} (hv : llm.Valid)
    {s : SessionState} (now : Nat) (ans : String) (h : EngineInv s) :
    EngineInv (TrainingEngine.handle_remediation_answer llm now s ans).session := by
  unfold TrainingEngine.handle_remediation_answer
  split
  · exact h
  · split
    · exact h
    · split
      · refine ⟨le_refl 0, ?_, ?_, ?_, ?_⟩
        · simp only [SessionState.update_activity, SessionState.exit_remediation,
            SessionState.add_answer, SessionState.restored_step]
          cases hos : s.original_step with
          | none => exact h.cs_pos
          | some o => exact h.orig_pos o hos
        · intro o ho
          simp only [SessionState.update_activity, SessionState.exit_remediation,
            SessionState.add_answer] at ho
          cases ho
        · simp [SessionState.update_activity, SessionState.exit_remediation,
            SessionState.add_answer]
        · intro hcontra
          simp [SessionState.update_activity, SessionState.exit_remediation,
            SessionState.add_answer] at hcontra
      · apply inv_remediation_fail_core
        exact ⟨by have := h.fc_nonneg; simp [SessionState.add_answer,
            SessionState.bump_failure]; omega,
          h.cs_pos, h.orig_pos, h.orig_iff_rem, h.rem_correct⟩

theorem inv_handle_step {llm : LLMOracle} (hv : llm.Valid) {s : SessionState}
    (now : Nat) (ans : String) (h : EngineInv s) :
    EngineInv (TrainingEngine.handle_step_answer llm now s ans).session := by
  unfold TrainingEngine.handle_step_answer
  split
  · exact h
  · split
    · exact h
    · split
      · exact inv_handle_pass now _ _
          ⟨h.fc_nonneg, h.cs_pos, h.orig_pos, h.orig_iff_rem, h.rem_correct⟩
      · apply inv_handle_failure_core hv
        exact ⟨by have := h.fc_nonneg; simp [SessionState.add_answer,
            SessionState.bump_failure]; omega,
          h.cs_pos, h.orig_pos, h.orig_iff_rem, h.rem_correct⟩

theorem inv_submit {llm : LLMOracle} (hv : llm.Valid) {s : SessionState}
    (now : Nat) (ans : String) (is_remediation : Bool) (h : EngineInv s) :
    EngineInv (TrainingEngine.submit_answer llm now s ans is_remediation).session := by
  unfold TrainingEngine.submit_answer
  split
  · exact h
  · split
    · exact inv_handle_remediation hv now ans h
    · exact inv_handle_step hv now ans h

theorem inv_advance {s : SessionState} (now : Nat) (h : EngineInv s) :
    EngineInv (TrainingEngine.advance_to_next_step now s).1 := by
  unfold TrainingEngine.advance_to_next_step
  split
  · exact h
  · split
    · exact h
    · refine ⟨le_refl 0, ?_, h.orig_pos, h.orig_iff_rem, h.rem_correct⟩
      show (1 : Int) ≤ s.current_step + 1
      have := h.cs_pos
      omega

/-- Every session state the engine can reach satisfies the invariant. -/
theorem reachable_inv {s : SessionState} (h : Reachable s) : EngineInv s := by
  induction h with
  | start user_id now => exact inv_fresh user_id now
  | submit llm now answer is_remediation hv _ ih =>
    exact inv_submit hv now answer is_remediation ih
  | advance now _ ih => exact inv_advance now ih

/-- C4: submitting any answer, with either value of `is_remediation`, to a
session whose `completed` flag is true raises the "already completed" error
and leaves the session exactly unchanged (in particular `current_step`,
`failure_count`, `history`, all remediation fields and
`completed`/`completed_at` are untouched): the completed check runs before
any mutation. -/
theorem claim_C4 (llm : LLMOracle) (now : Nat) (s : SessionState)
    (answer : String) (is_remediation : Bool) (h : s.completed = true) :
    TrainingEngine.submit_answer llm now s answer is_remediation =
      ⟨s, .error .already_completed⟩ := by
  simp [TrainingEngine.submit_answer, h]

/-- C4 witness at a concrete completed session. -/
theorem claim_C4_witness :
    demo_completed_session.completed = true ∧
    TrainingEngine.submit_answer llm_fail 9 demo_completed_session "C" false =
      ⟨demo_completed_session, .error .already_completed⟩ :=
  ⟨rfl, claim_C4 llm_fail 9 demo_completed_session "C" false rfl⟩

/-- C9: the code evaluated at the failing input.  The claim says a
construction without an explicit boolean stores `score >= threshold`; but in
pydantic, fields are validated in declaration order and `passed` is declared
before `score` and `threshold`, so `validate_passed` sees an empty
`info.data` and compares the defaults `0 >= 7.0`: with `score = 10` and
`threshold = 7` the stored flag is `false` although `score >= threshold`
holds.  An explicitly supplied boolean is kept unchanged. -/
theorem claim_C9 :
    (construct_evaluation_result none 10 "Good free-form answer." none 7).passed
        = false ∧
    ((10 : ℚ) ≥ 7) ∧
    (∀ (b : Bool) (score : ℚ) (feedback : String)
        (dims : Option RubricDimensions) (threshold : ℚ),
      (construct_evaluation_result (some b) score feedback dims threshold).passed
        = b) :=
  ⟨rfl, by norm_num, fun _ _ _ _ _ => rfl⟩

/-- C8: on step 4 or step 5, an answer whose trimmed-and-uppercased form is
one of the step's presented option letters evaluates to a fail with score 0,
and this holds for every oracle `llm` — the result never consults the remote
collaborator — and for every session state, since the evaluator takes no
session data at all (so remediation tier and failure count cannot influence
it).  For step 5 the hypothesis is vacuous: it presents no options. -/
theorem claim_C8 (llm : LLMOracle) (step_id : Int)
    (h : step_id = 4 ∨ step_id = 5) (answer : String) (step : Step)
    (hstep : ContentProvider.get_step step_id = some step)
    (hopt : EvaluationService.step_options_contains step
        (normalize_answer answer) = true) :
    EvaluationService.evaluate_answer llm step_id answer =
      .ok { passed := false, score := 0
            feedback := EvaluationService.production_decoy_feedback
            dimensions := none, threshold := step.pass_threshold } := by
  have key : ∀ st : Step,
      EvaluationService.step_options_contains st (normalize_answer answer) = true →
      EvaluationService.evaluate_production llm st answer =
        .ok { passed := false, score := 0
              feedback := EvaluationService.production_decoy_feedback
              dimensions := none, threshold := st.pass_threshold } := by
    intro st hst
    unfold EvaluationService.evaluate_production
    simp [hst]
  rcases h with h | h <;> subst h
  · have hs : step = ContentProvider.step_4 := by
      simpa [ContentProvider.get_step] using hstep.symm
    subst hs
    have h4 : EvaluationService.evaluate_answer llm 4 answer =
        EvaluationService.evaluate_production llm ContentProvider.step_4 answer := rfl
    rw [h4, key _ hopt]
  · have hs : step = ContentProvider.step_5 := by
      simpa [ContentProvider.get_step] using hstep.symm
    subst hs
    exact absurd hopt (by simp [EvaluationService.step_options_contains,
      ContentProvider.step_5])

/-- C8 witness: step 4, answer " b " (a decoy letter). -/
theorem claim_C8_witness :
    ContentProvider.get_step 4 = some ContentProvider.step_4 ∧
    EvaluationService.step_options_contains ContentProvider.step_4
      (normalize_answer " b ") = true ∧
    EvaluationService.evaluate_answer llm_fail 4 " b " =
      .ok { passed := false, score := 0
            feedback := EvaluationService.production_decoy_feedback
            dimensions := none
            threshold := ContentProvider.step_4.pass_threshold } :=
  ⟨rfl, by decide,
    claim_C8 llm_fail 4 (Or.inl rfl) " b " ContentProvider.step_4 rfl (by decide)⟩

/-- C6: on every recognition step (steps 1-3, whose catalog correct answer
is the letter C), an answer normalizing to the correct letter passes with
score 10; an answer normalizing to a different option letter fails with
score 0 and feedback naming the chosen option's text; any other token fails
with score 0 and the generic choose-one-of-the-options message.  Quantified
over the oracle: recognition evaluation never consults the remote
collaborator. -/
theorem claim_C6 (llm : LLMOracle) (step_id : Int)
    (h : step_id = 1 ∨ step_id = 2 ∨ step_id = 3) (answer : String) :
    ∃ step opts, ContentProvider.get_step step_id = some step ∧
      step.type = .recognition ∧
      step.options = some opts ∧
      step.correct_answer = some "C" ∧
      (normalize_answer answer = "C" →
        EvaluationService.evaluate_answer llm step_id answer =
          .ok { passed := true, score := 10
                feedback := EvaluationService.recognition_correct_feedback
                dimensions := none, threshold := 10 }) ∧
      (∀ t, normalize_answer answer ≠ "C" →
        opts.lookup (normalize_answer answer) = some t →
        EvaluationService.evaluate_answer llm step_id answer =
          .ok { passed := false, score := 0
                feedback := EvaluationService.recognition_wrong_feedback t
                dimensions := none, threshold := 10 }) ∧
      (opts.lookup (normalize_answer answer) = none →
        EvaluationService.evaluate_answer llm step_id answer =
          .ok { passed := false, score := 0
                feedback := EvaluationService.recognition_invalid_feedback
                dimensions := none, threshold := 10 }) := by
  have main : ∀ st : Step, st.type = .recognition → st.correct_answer = some "C" →
      ∀ opts, st.options = some opts → opts ≠ [] → opts.lookup "C" ≠ none →
      EvaluationService.evaluate_answer llm step_id answer =
        .ok (EvaluationService.evaluate_recognition st answer) →
      ((normalize_answer answer = "C" →
        EvaluationService.evaluate_answer llm step_id answer =
          .ok { passed := true, score := 10
                feedback := EvaluationService.recognition_correct_feedback
                dimensions := none, threshold := 10 }) ∧
      (∀ t, normalize_answer answer ≠ "C" →
        opts.lookup (normalize_answer answer) = some t →
        EvaluationService.evaluate_answer llm step_id answer =
          .ok { passed := false, score := 0
                feedback := EvaluationService.recognition_wrong_feedback t
                dimensions := none, threshold := 10 }) ∧
      (opts.lookup (normalize_answer answer) = none →
        EvaluationService.evaluate_answer llm step_id answer =
          .ok { passed := false, score := 0
                feedback := EvaluationService.recognition_invalid_feedback
                dimensions := none, threshold := 10 })) := by
    intro st htype hca opts hopts hne hCkey heval
    clear htype
    refine ⟨?_, ?_, ?_⟩
    · intro hn
      rw [heval]
      unfold EvaluationService.evaluate_recognition
      rw [if_pos]
      simp [EvaluationService.matches_correct, hca, hn]
    · intro t hnC hlook
      rw [heval]
      unfold EvaluationService.evaluate_recognition
      rw [if_neg]
      · simp [hopts, hne, hlook]
      · simp [EvaluationService.matches_correct, hca, hnC]
    · intro hnone
      rw [heval]
      unfold EvaluationService.evaluate_recognition
      rw [if_neg]
      · simp [hopts, hne, hnone]
      · simp only [EvaluationService.matches_correct, hca]
        intro hcontra
        rw [beq_iff_eq] at hcontra
        rw [hcontra] at hnone
        exact hCkey hnone
  rcases h with h | h | h <;> subst h
  · exact ⟨ContentProvider.step_1, _, rfl, rfl, rfl, rfl,
      main ContentProvider.step_1 rfl rfl _ rfl (by simp) (by decide) rfl⟩
  · exact ⟨ContentProvider.step_2, _, rfl, rfl, rfl, rfl,
      main ContentProvider.step_2 rfl rfl _ rfl (by simp) (by decide) rfl⟩
  · exact ⟨ContentProvider.step_3, _, rfl, rfl, rfl, rfl,
      main ContentProvider.step_3 rfl rfl _ rfl (by simp) (by decide) rfl⟩

/-- C6 witness: step 1 with the answer " c ". -/
theorem claim_C6_witness :
    ∃ step opts, ContentProvider.get_step 1 = some step ∧
      step.type = .recognition ∧
      step.options = some opts ∧
      step.correct_answer = some "C" ∧
      (normalize_answer " c " = "C" →
        EvaluationService.evaluate_answer llm_fail 1 " c " =
          .ok { passed := true, score := 10
                feedback := EvaluationService.recognition_correct_feedback
                dimensions := none, threshold := 10 }) ∧
      (∀ t, normalize_answer " c " ≠ "C" →
        opts.lookup (normalize_answer " c ") = some t →
        EvaluationService.evaluate_answer llm_fail 1 " c " =
          .ok { passed := false, score := 0
                feedback := EvaluationService.recognition_wrong_feedback t
                dimensions := none, threshold := 10 }) ∧
      (opts.lookup (normalize_answer " c ") = none →
        EvaluationService.evaluate_answer llm_fail 1 " c " =
          .ok { passed := false, score := 0
                feedback := EvaluationService.recognition_invalid_feedback
                dimensions := none, threshold := 10 }) :=
  claim_C6 llm_fail 1 (Or.inl rfl) " c "

/-- `_handle_pass` performs no remote call and always returns a result, not
an error. -/
theorem handle_pass_result_ok (now : Nat) (s : SessionState) (step : Step)
    (ev : EvaluationResult) (e : EngineError) :
    (TrainingEngine.handle_pass now s step ev).result ≠ .error e := by
  unfold TrainingEngine.handle_pass
  split <;> simp

/-- When `_handle_failure` propagates a remote-generation error, the session
is left exactly as the caller passed it in (with the failure count already
incremented): the generation calls happen before any remediation-field
assignment. -/
theorem handle_failure_core_error (llm : LLMOracle) (now : Nat)
    (s : SessionState) (ev : EvaluationResult) (ans m : String)
    (h : (TrainingEngine.handle_failure_core llm now s ev ans).result =
      .error (.llm_failed m)) :
    (TrainingEngine.handle_failure_core llm now s ev ans).session = s := by
  unfold TrainingEngine.handle_failure_core at h ⊢
  split at h
  · split at h <;> simp_all
  · split at h
    · split at h
      · simp_all
      · split at h <;> simp_all
    · simp_all

/-- A main-step submission that surfaces an LLM-generation error has: a
completed failing evaluation, and a session mutated by exactly the history
append and the failure-count increment performed before the remote call. -/
theorem handle_step_answer_llm_error (llm : LLMOracle) (now : Nat)
    (s : SessionState) (answer m : String)
    (h : (TrainingEngine.handle_step_answer llm now s answer).result =
      .error (.llm_failed m)) :
    ∃ ev, EvaluationService.evaluate_answer llm s.current_step answer = .ok ev ∧
      ev.passed = false ∧
      (TrainingEngine.handle_step_answer llm now s answer).session =
        (s.add_answer now s.current_step answer false (some ev.score)).bump_failure := by
  unfold TrainingEngine.handle_step_answer at h ⊢
  split at h
  · simp at h
  · split at h
    · simp at h
    · next ev heq =>
      split at h
      · exact absurd h (handle_pass_result_ok now _ _ ev _)
      · next hp =>
        have hp' : ev.passed = false := by simpa using hp
        refine ⟨ev, heq, hp', ?_⟩
        rw [hp'] at h ⊢
        exact handle_failure_core_error llm now _ ev answer m h

/-- C1 counterexample: on a fresh session (failure count 0, empty history) a
wrong answer on step 1 followed by a failing remediation-generation call
leaves the error propagating, yet the stored session now has
`failure_count = 1` and one appended history record — the claim says both
would be left exactly as they were. -/
theorem claim_C1_counterexample :
    (SessionState.fresh "u" 0).failure_count = 0 ∧
    (SessionState.fresh "u" 0).history = [] ∧
    (TrainingEngine.submit_answer llm_fail 5 (SessionState.fresh "u" 0) "A"
        false).result = .error (.llm_failed "remediation unavailable") ∧
    (TrainingEngine.submit_answer llm_fail 5 (SessionState.fresh "u" 0) "A"
        false).session.failure_count = 1 ∧
    (TrainingEngine.submit_answer llm_fail 5 (SessionState.fresh "u" 0) "A"
        false).session.history =
      [{ step_id := 1, answer := "A", correct := false, score := some 0,
         timestamp := 5 }] := by
  refine ⟨rfl, rfl, ?_, ?_, ?_⟩ <;> decide

/-- C1 amended: when a main-step submission's evaluation returns a failure
and the subsequent remote remediation/mini-lesson generation raises, the
error propagates to the caller but the already-applied mutations persist in
the stored session: `failure_count` is incremented by one and `history` has
gained the failure record (the engine mutates the live session object before
the remote call, so the submission is not all-or-nothing).  All other fields
are unchanged. -/
theorem claim_C1_amended (llm : LLMOracle) (now : Nat) (s : SessionState)
    (answer m : String) (hc : s.completed = false)
    (herr : (TrainingEngine.submit_answer llm now s answer false).result =
      .error (.llm_failed m)) :
    ∃ ev, EvaluationService.evaluate_answer llm s.current_step answer = .ok ev ∧
      ev.passed = false ∧
      (TrainingEngine.submit_answer llm now s answer false).session =
        { s with
          failure_count := s.failure_count + 1
          history := s.history ++
            [{ step_id := s.current_step, answer := answer, correct := false,
               score := some ev.score, timestamp := now }]
          last_activity := now } := by
  have hmain : TrainingEngine.submit_answer llm now s answer false =
      TrainingEngine.handle_step_answer llm now s answer := by
    simp [TrainingEngine.submit_answer, hc]
  rw [hmain] at herr ⊢
  obtain ⟨ev, heq, hp', hsess⟩ :=
    handle_step_answer_llm_error llm now s answer m herr
  refine ⟨ev, heq, hp', ?_⟩
  rw [hsess]
  simp [SessionState.add_answer, SessionState.bump_failure]

/-- C1 witness for the amended claim: concrete failing run on a fresh
session. -/
theorem claim_C1_witness :
    (SessionState.fresh "u" 0).completed = false ∧
    (TrainingEngine.submit_answer llm_fail 5 (SessionState.fresh "u" 0) "A"
        false).result = .error (.llm_failed "remediation unavailable") ∧
    ∃ ev, EvaluationService.evaluate_answer llm_fail
        (SessionState.fresh "u" 0).current_step "A" = .ok ev ∧
      ev.passed = false ∧
      (TrainingEngine.submit_answer llm_fail 5 (SessionState.fresh "u" 0) "A"
          false).session =
        { SessionState.fresh "u" 0 with
          failure_count := (SessionState.fresh "u" 0).failure_count + 1
          history := (SessionState.fresh "u" 0).history ++
            [{ step_id := (SessionState.fresh "u" 0).current_step,
               answer := "A", correct := false, score := some ev.score,
               timestamp := 5 }]
          last_activity := 5 } :=
  ⟨rfl, by decide,
    claim_C1_amended llm_fail 5 (SessionState.fresh "u" 0) "A"
      "remediation unavailable" rfl (by decide)⟩

/-- When `_handle_failure` runs with an already-positive failure count (as
it always does: the count was just incremented from a non-negative value),
its completed results are exactly `failed_first_attempt` at failure count 1
and `failed_second_attempt` at failure count at least 2; the bare `failed`
fall-through needs a non-positive incremented count and is unreachable. -/
theorem handle_failure_core_classify (llm : LLMOracle) (now : Nat)
    (s : SessionState) (ev : EvaluationResult) (ans : String)
    (hfc : 1 ≤ s.failure_count) :
    (∀ ev2, (TrainingEngine.handle_failure_core llm now s ev ans).result ≠
        .ok (.failed ev2)) ∧
    (∀ ev2 rp, (TrainingEngine.handle_failure_core llm now s ev ans).result =
        .ok (.failed_first_attempt ev2 rp) →
      (TrainingEngine.handle_failure_core llm now s ev ans).session.failure_count
        = 1) ∧
    (∀ ev2 ml rp, (TrainingEngine.handle_failure_core llm now s ev ans).result =
        .ok (.failed_second_attempt ev2 ml rp) →
      2 ≤ (TrainingEngine.handle_failure_core llm now s ev ans).session.failure_count) := by
  unfold TrainingEngine.handle_failure_core
  split
  · next h1 =>
    split
    · simp
    · refine ⟨by simp, ?_, by simp⟩
      intro ev2 rp _
      simp [SessionState.update_activity, SessionState.enter_remediation, h1]
  · next h1 =>
    split
    · next h2 =>
      split
      · simp
      · split
        · simp
        · refine ⟨by simp, by simp, ?_⟩
          intro ev2 ml rp _
          simpa using h2
    · next h2 =>
      exfalso
      omega

/-- C3: from any reachable session state, a main-step submission never
returns the bare `failed` fall-through result; a `failed_first_attempt`
result leaves `failure_count = 1` and a `failed_second_attempt` result
leaves `failure_count >= 2`.  (A failing evaluation can also abort with a
remote-generation error, which returns no result at all.) -/
theorem claim_C3 (llm : LLMOracle) (now : Nat) (s : SessionState)
    (answer : String) (h : Reachable s) :
    (∀ ev, (TrainingEngine.submit_answer llm now s answer false).result ≠
        .ok (.failed ev)) ∧
    (∀ ev rp, (TrainingEngine.submit_answer llm now s answer false).result =
        .ok (.failed_first_attempt ev rp) →
      (TrainingEngine.submit_answer llm now s answer false).session.failure_count
        = 1) ∧
    (∀ ev ml rp, (TrainingEngine.submit_answer llm now s answer false).result =
        .ok (.failed_second_attempt ev ml rp) →
      2 ≤ (TrainingEngine.submit_answer llm now s answer false).session.failure_count) := by
  have hfc0 := (reachable_inv h).fc_nonneg
  by_cases hcomp : s.completed
  · simp [TrainingEngine.submit_answer, hcomp]
  · have hmain : TrainingEngine.submit_answer llm now s answer false =
        TrainingEngine.handle_step_answer llm now s answer := by
      simp [TrainingEngine.submit_answer, hcomp]
    rw [hmain]
    unfold TrainingEngine.handle_step_answer
    split
    · simp
    · split
      · simp
      · split
        · unfold TrainingEngine.handle_pass
          split <;> simp
        · exact handle_failure_core_classify llm now _ _ answer
            (by simp [SessionState.add_answer, SessionState.bump_failure]; omega)

/-- C3 witness: instantiated at a fresh (trivially reachable) session. -/
theorem claim_C3_witness :
    (∀ ev, (TrainingEngine.submit_answer llm_fail 5 (SessionState.fresh "v" 0)
        "A" false).result ≠ .ok (.failed ev)) ∧
    (∀ ev rp, (TrainingEngine.submit_answer llm_fail 5 (SessionState.fresh "v" 0)
        "A" false).result = .ok (.failed_first_attempt ev rp) →
      (TrainingEngine.submit_answer llm_fail 5 (SessionState.fresh "v" 0) "A"
          false).session.failure_count = 1) ∧
    (∀ ev ml rp, (TrainingEngine.submit_answer llm_fail 5
        (SessionState.fresh "v" 0) "A" false).result =
        .ok (.failed_second_attempt ev ml rp) →
      2 ≤ (TrainingEngine.submit_answer llm_fail 5 (SessionState.fresh "v" 0)
          "A" false).session.failure_count) :=
  claim_C3 llm_fail 5 (SessionState.fresh "v" 0) "A" (Reachable.start "v" 0)

/-- C5: in every session state reachable through engine operations from a
fresh start, `original_step` is non-null exactly while the session is in
remediation; the biconditional is an invariant of every operation. -/
theorem claim_C5 (s : SessionState) (h : Reachable s) :
    s.original_step ≠ none ↔ s.in_remediation = true :=
  (reachable_inv h).orig_iff_rem

/-- C5 witness: the fresh session (both sides false). -/
theorem claim_C5_witness :
    ((SessionState.fresh "w" 0).original_step ≠ none ↔
      (SessionState.fresh "w" 0).in_remediation = true) :=
  claim_C5 (SessionState.fresh "w" 0) (Reachable.start "w" 0)

/-- C2: for every reachable session in remediation, a remediation answer
normalizing to the stored correct letter appends one history record against
the saved `original_step`, clears `in_remediation` and all four remediation
fields, restores `current_step` to the saved `original_step`, clears
`original_step`, zeroes `failure_count`, and returns `remediation_passed`
carrying the step the user returns to.  Reachability supplies that the
stored correct answer is one of A-D (validated by the LLM service) and that
the saved original step is at least 1. -/
theorem claim_C2 (llm : LLMOracle) (now : Nat) (s : SessionState)
    (answer : String) (o : Int) (hreach : Reachable s)
    (hrem : s.in_remediation = true) (hc : s.completed = false)
    (horig : s.original_step = some o)
    (hans : s.remediation_correct_answer = some (normalize_answer answer)) :
    TrainingEngine.submit_answer llm now s answer true =
      ⟨{ s with
          history := s.history ++
            [{ step_id := o, answer := answer, correct := true, score := none,
               timestamp := now }]
          in_remediation := false
          remediation_content := none
          remediation_question := none
          remediation_options := none
          remediation_correct_answer := none
          current_step := o
          original_step := none
          failure_count := 0
          last_activity := now },
       .ok (.remediation_passed (ContentProvider.get_step o))⟩ := by
  have hinv := reachable_inv hreach
  have ho1 : 1 ≤ o := hinv.orig_pos o horig
  have ho0 : ¬ o = 0 := by omega
  have hmem : normalize_answer answer ∈ (["A", "B", "C", "D"] : List String) := by
    rcases hinv.rem_correct hrem with h1 | h1 | h1 | h1 <;>
      (rw [hans] at h1; simp_all)
  have hooc : s.original_or_current = o := by
    simp [SessionState.original_or_current, horig, ho0]
  have h1 : TrainingEngine.submit_answer llm now s answer true =
      TrainingEngine.handle_remediation_answer llm now s answer := by
    simp [TrainingEngine.submit_answer, hc]
  rw [h1]
  unfold TrainingEngine.handle_remediation_answer
  rw [if_neg (by simp [hrem]), if_neg (not_not_intro hmem), if_pos hans]
  rw [hooc]
  congr 1
  · simp [SessionState.add_answer, SessionState.exit_remediation,
      SessionState.update_activity, SessionState.restored_step, horig]
  · simp [SessionState.restored_step, horig]

/-- C2 witness: the reachable in-remediation session obtained by failing
step 1 once, then answering the remediation question with " c ". -/
theorem claim_C2_witness :
    TrainingEngine.submit_answer llm_fail 7 demo_in_remediation " c " true =
      ⟨{ demo_in_remediation with
          history := demo_in_remediation.history ++
            [{ step_id := 1, answer := " c ", correct := true, score := none,
               timestamp := 7 }]
          in_remediation := false
          remediation_content := none
          remediation_question := none
          remediation_options := none
          remediation_correct_answer := none
          current_step := 1
          original_step := none
          failure_count := 0
          last_activity := 7 },
       .ok (.remediation_passed (ContentProvider.get_step 1))⟩ :=
  claim_C2 llm_fail 7 demo_in_remediation " c " 1
    (Reachable.submit llm_ok 1 "A" false llm_ok_valid (Reachable.start "u" 0))
    (by decide) (by decide) (by decide) (by decide)

set_option maxRecDepth 8000 in
/-- C7 counterexample: an in-remediation session at failure count 2
answering the wrong letter A (correct is B) receives the
`remediation_failed_multiple` result, but the operation does not change only
`failure_count` and `remediation_content`: the history has gained a record
and `last_activity` moved. -/
theorem claim_C7_counterexample :
    demo_remediation_session.in_remediation = true ∧
    demo_remediation_session.failure_count = 2 ∧
    demo_remediation_session.remediation_correct_answer = some "B" ∧
    (TrainingEngine.submit_answer llm_ok 7 demo_remediation_session "A"
        true).session.failure_count = 3 ∧
    (TrainingEngine.submit_answer llm_ok 7 demo_remediation_session "A"
        true).result = .ok (.remediation_failed_multiple sample_mini_lesson
          (TrainingEngine.format_mini_lesson sample_mini_lesson)) ∧
    (TrainingEngine.submit_answer llm_ok 7 demo_remediation_session "A"
        true).session.history ≠ demo_remediation_session.history ∧
    (TrainingEngine.submit_answer llm_ok 7 demo_remediation_session "A"
        true).session.last_activity ≠ demo_remediation_session.last_activity := by
  refine ⟨rfl, rfl, rfl, ?_, ?_, ?_, ?_⟩ <;> decide

/-- C7 amended: an incorrect option letter raising `failure_count` above 2
changes `failure_count` (incremented), `history` (one appended failure
record against the saved original step), `remediation_content` (overwritten
with the freshly formatted mini-lesson) and `last_activity`, and returns
`remediation_failed_multiple`; `current_step`, `original_step`,
`in_remediation`, `remediation_question`, `remediation_options`, and
`remediation_correct_answer` are unchanged. -/
theorem claim_C7_amended (llm : LLMOracle) (now : Nat) (s : SessionState)
    (answer : String) (ml : MiniLesson)
    (hrem : s.in_remediation = true) (hc : s.completed = false)
    (hmem : normalize_answer answer ∈ (["A", "B", "C", "D"] : List String))
    (hwrong : ¬ s.remediation_correct_answer = some (normalize_answer answer))
    (hfc : 2 < s.failure_count + 1)
    (hml : llm.generate_mini_lesson ContentProvider.get_topic = .ok ml) :
    TrainingEngine.submit_answer llm now s answer true =
      ⟨{ s with
          failure_count := s.failure_count + 1
          history := s.history ++
            [{ step_id := s.original_or_current, answer := answer,
               correct := false, score := none, timestamp := now }]
          remediation_content := some (TrainingEngine.format_mini_lesson ml)
          last_activity := now },
        .ok (.remediation_failed_multiple ml
          (TrainingEngine.format_mini_lesson ml))⟩ := by
  have h1 : TrainingEngine.submit_answer llm now s answer true =
      TrainingEngine.handle_remediation_answer llm now s answer := by
    simp [TrainingEngine.submit_answer, hc]
  rw [h1]
  unfold TrainingEngine.handle_remediation_answer
  rw [if_neg (by simp [hrem]), if_neg (not_not_intro hmem), if_neg hwrong]
  unfold TrainingEngine.remediation_fail_core
  have hcond : (2 : Int) <
      ((s.bump_failure.add_answer now s.bump_failure.original_or_current answer
        false none).failure_count) := hfc
  rw [if_pos hcond]
  simp only [hml]
  congr 1

/-- C7 witness for the amended claim: the concrete third-failure run. -/
theorem claim_C7_witness :
    TrainingEngine.submit_answer llm_ok 7 demo_remediation_session "A" true =
      ⟨{ demo_remediation_session with
          failure_count := demo_remediation_session.failure_count + 1
          history := demo_remediation_session.history ++
            [{ step_id := demo_remediation_session.original_or_current,
               answer := "A", correct := false, score := none, timestamp := 7 }]
          remediation_content :=
            some (TrainingEngine.format_mini_lesson sample_mini_lesson)
          last_activity := 7 },
        .ok (.remediation_failed_multiple sample_mini_lesson
          (TrainingEngine.format_mini_lesson sample_mini_lesson))⟩ :=
  claim_C7_amended llm_ok 7 demo_remediation_session "A" sample_mini_lesson
    (by decide) (by decide) (by decide) (by decide) (by decide) rfl

/-- `_handle_pass` never touches the history. -/
theorem handle_pass_session_history (now : Nat) (s : SessionState)
    (step : Step) (ev : EvaluationResult) :
    (TrainingEngine.handle_pass now s step ev).session.history = s.history := by
  unfold TrainingEngine.handle_pass
  split <;>
    simp [SessionState.mark_completed, SessionState.update_activity]

/-- `_handle_failure` never touches the history after the caller's append. -/
theorem handle_failure_core_session_history (llm : LLMOracle) (now : Nat)
    (s : SessionState) (ev : EvaluationResult) (ans : String) :
    (TrainingEngine.handle_failure_core llm now s ev ans).session.history =
      s.history := by
  unfold TrainingEngine.handle_failure_core
  split
  · split <;>
      simp [SessionState.enter_remediation, SessionState.update_activity]
  · split
    · split
      · simp
      · split <;> simp [SessionState.update_activity]
    · simp [SessionState.update_activity]

/-- The main-step path never raises the "not in remediation" error. -/
theorem handle_step_answer_no_remediation_error (llm : LLMOracle) (now : Nat)
    (s : SessionState) (ans : String) :
    (TrainingEngine.handle_step_answer llm now s ans).result ≠
      .error .not_in_remediation := by
  unfold TrainingEngine.handle_step_answer
  split
  · simp
  · split
    · simp
    · split
      · unfold TrainingEngine.handle_pass
        split <;> simp
      · unfold TrainingEngine.handle_failure TrainingEngine.handle_failure_core
        split
        · split <;> simp
        · split
          · split
            · simp
            · split <;> simp
          · simp

/-- C10: for an active, non-completed session that is in remediation, a
main-step submission (`is_remediation = false`) is not blocked: it takes the
same path as for any non-completed session, never raises the
"not in remediation" error, and on a completed evaluation appends the
history record for the current step exactly as when not in remediation.
The error arises only in the converse case: `is_remediation = true` while
the session is not in remediation, where nothing is mutated. -/
theorem claim_C10 (llm : LLMOracle) (now : Nat) (s : SessionState)
    (answer : String) (hc : s.completed = false)
    (hrem : s.in_remediation = true) :
    TrainingEngine.submit_answer llm now s answer false =
      TrainingEngine.handle_step_answer llm now s answer ∧
    (TrainingEngine.submit_answer llm now s answer false).result ≠
      .error .not_in_remediation ∧
    (∀ ev, EvaluationService.evaluate_answer llm s.current_step answer = .ok ev →
      (TrainingEngine.submit_answer llm now s answer false).session.history =
        s.history ++
          [{ step_id := s.current_step, answer := answer, correct := ev.passed,
             score := some ev.score, timestamp := now }]) ∧
    (∀ s2 : SessionState, s2.completed = false → s2.in_remediation = false →
      TrainingEngine.submit_answer llm now s2 answer true =
        ⟨s2, .error .not_in_remediation⟩) := by
  have h1 : TrainingEngine.submit_answer llm now s answer false =
      TrainingEngine.handle_step_answer llm now s answer := by
    simp [TrainingEngine.submit_answer, hc]
  refine ⟨h1, ?_, ?_, ?_⟩
  · rw [h1]
    exact handle_step_answer_no_remediation_error llm now s answer
  · intro ev heval
    rw [h1]
    unfold TrainingEngine.handle_step_answer
    split
    · next hnone =>
      rw [EvaluationService.evaluate_answer, hnone] at heval
      simp at heval
    · split
      · next herr2 =>
        rw [herr2] at heval
        simp at heval
      · next ev2 heq2 =>
        have hev : ev2 = ev := by
          rw [heq2] at heval
          exact Except.ok.inj heval
        subst hev
        split
        · rw [handle_pass_session_history]
          simp [SessionState.add_answer]
        · rw [show TrainingEngine.handle_failure llm now
              (s.add_answer now s.current_step answer ev2.passed (some ev2.score))
              ev2 answer =
            TrainingEngine.handle_failure_core llm now
              (s.add_answer now s.current_step answer ev2.passed
                (some ev2.score)).bump_failure ev2 answer from rfl]
          rw [handle_failure_core_session_history]
          simp [SessionState.add_answer, SessionState.bump_failure]
  · intro s2 h2c h2r
    simp [TrainingEngine.submit_answer, h2c,
      TrainingEngine.handle_remediation_answer, h2r]

/-- C10 witness: an in-remediation session submitting an invalid main-step
answer "zz" against step 1. -/
theorem claim_C10_witness :
    TrainingEngine.submit_answer llm_fail 9 demo_remediation_session "zz" false =
      TrainingEngine.handle_step_answer llm_fail 9 demo_remediation_session "zz" ∧
    (TrainingEngine.submit_answer llm_fail 9 demo_remediation_session "zz"
        false).result ≠ .error .not_in_remediation ∧
    (∀ ev, EvaluationService.evaluate_answer llm_fail
        demo_remediation_session.current_step "zz" = .ok ev →
      (TrainingEngine.submit_answer llm_fail 9 demo_remediation_session "zz"
          false).session.history =
        demo_remediation_session.history ++
          [{ step_id := demo_remediation_session.current_step, answer := "zz",
             correct := ev.passed, score := some ev.score, timestamp := 9 }]) ∧
    (∀ s2 : SessionState, s2.completed = false → s2.in_remediation = false →
      TrainingEngine.submit_answer llm_fail 9 s2 "zz" true =
        ⟨s2, .error .not_in_remediation⟩) :=
  claim_C10 llm_fail 9 demo_remediation_session "zz" rfl rfl
